import Mathlib

/-!
Verification development for the pokemon-scanner repository.

Shallow embedding of the core identification / resolution engine:
* `src/match/score.py` — confidence scoring (`confidence_from`),
* `src/resolve/poketcg.py` — catalog resolver (`_request_with_backoff`,
  `search_cards`, `resolve_card`, `_find_best_match`, `_parse_card_data`),
* `src/store/cache.py` — SQLite cache (`upsert_card`, `upsert_prices`,
  `get_price_data_from_cache`, `get_new_scans`),
* `src/cli.py` — the batch "price" driver's OCR gate
  (`_has_valid_ocr_data`, `_process_single_scan`, `_process_all_scans`).

Conventions of the embedding:
* Python floats are modelled as exact rationals (`ℚ`).  Every concrete value
  this development evaluates has at most two decimal digits, where the binary
  double semantics and the exact rational semantics agree.
* Wall-clock timestamps (ISO-8601 strings in the code, compared
  lexicographically by SQLite, which on this fixed format coincides with
  chronological order) are modelled as rationals measured in hours.
* Python's stable `list.sort(key=..., reverse=True)` is modelled by a stable
  insertion sort descending on the key; a stable sort's output is uniquely
  determined by the key order, so this is exact.
-/

namespace PokemonScanner

/-! ## rapidfuzz `fuzz.ratio`

`rapidfuzz.fuzz.ratio` is the normalized InDel similarity:
`100 * (1 - dist / (|s1| + |s2|))` where `dist = |s1| + |s2| - 2 * lcs`,
i.e. `200 * lcs / (|s1| + |s2|)`, and `100` when both strings are empty. -/

/-- Longest-common-subsequence recursion, with a fuel argument so the
definition is structurally recursive (every call drops the combined length
by at least one, so fuel `|l1| + |l2|` never runs out). -/
def lcsFuel : Nat → List Char → List Char → Nat
  | 0, _, _ => 0
  | _ + 1, [], _ => 0
  | _ + 1, _ :: _, [] => 0
  | fuel + 1, a :: as, b :: bs =>
    if a = b then lcsFuel fuel as bs + 1
    else max (lcsFuel fuel (a :: as) bs) (lcsFuel fuel as (b :: bs))

/-- Length of the longest common subsequence of two character lists. -/
def lcs (l1 l2 : List Char) : Nat := lcsFuel (l1.length + l2.length) l1 l2

/-- Python `str.lower()` (ASCII, which is all the card names use). -/
def lowerStr (s : String) : String := String.mk (s.data.map Char.toLower)

/-- `rapidfuzz.fuzz.ratio`, as an exact rational in `[0, 100]`. -/
def fuzzRatioPct (s1 s2 : String) : ℚ :=
  let l1 := s1.length
  let l2 := s2.length
  if l1 + l2 = 0 then 100
  else (200 * (lcs s1.toList s2.toList) : ℚ) / (l1 + l2 : ℚ)

/-! ## `src/core/types.py` and `src/core/constants.py` -/

/-- `ResolvedCard` from `src/core/types.py` (also exported as `PokemonCard`).
The raw pricing payloads and image-URL dictionary are opaque to every claim;
they are carried as plain optional strings / association lists. -/
structure ResolvedCard where
  card_id : String
  name : String
  number : String
  set_name : String
  set_id : String
  rarity : Option String
  images : List (String × String) := []
  raw_tcgplayer : Option String := none
  raw_cardmarket : Option String := none
  set_release_date : Option String := none
  deriving Repr, DecidableEq

/-- `BACKOFF_S` from `src/core/constants.py`: `[0.2, 1.0, 3.0]` seconds. -/
def BACKOFF_S : List ℚ := [2/10, 1, 3]

/-! ## Candidate matching: `PokemonTCGResolver._find_best_match`

`card_info` arrives either as an `ocr.extract.CardInfo` object or as a dict;
both are converted to a dict with keys `name` and `collector_number`
(`{'num': int, 'den': int}`).  We embed that converted dict. -/

/-- The OCR collector-number fraction `{'num': int, 'den': int}`. -/
structure CollectorNumber where
  num : Nat
  den : Nat
  deriving Repr, DecidableEq

/-- The `card_dict` both `_find_best_match` and `find_best_match` normalize
their `card_info` argument to: optional name, optional collector number. -/
structure CardQueryInfo where
  name : Option String
  collector_number : Option CollectorNumber
  deriving Repr, DecidableEq

/-- `f"{card_dict['collector_number']['num']}/{card_dict['collector_number']['den']}"`. -/
def collectorNumberStr (cn : CollectorNumber) : String :=
  toString cn.num ++ "/" ++ toString cn.den

/-- Python truthiness of the `card_dict.get("name")` guard: `None` and the
empty string are falsy. -/
def truthyName (n : Option String) : Option String :=
  match n with
  | none => none
  | some s => if s = "" then none else some s

/-- One step of the stable descending insertion sort modelling Python's
stable `list.sort(key=k, reverse=True)`. -/
def orderedInsertDesc (key : ResolvedCard → ℚ) (a : ResolvedCard) :
    List ResolvedCard → List ResolvedCard
  | [] => [a]
  | b :: l => if key b ≤ key a then a :: b :: l else b :: orderedInsertDesc key a l

/-- Stable sort, descending by `key`; equal keys keep their original order,
exactly as Python's `list.sort(key=k, reverse=True)` guarantees. -/
def sortByKeyDesc (key : ResolvedCard → ℚ) : List ResolvedCard → List ResolvedCard
  | [] => []
  | a :: l => orderedInsertDesc key a (sortByKeyDesc key l)

/-- The sort key `fuzz.ratio(card_dict["name"].lower(), c.name.lower())`. -/
def nameSimKey (queryName : String) (c : ResolvedCard) : ℚ :=
  fuzzRatioPct (lowerStr queryName) (lowerStr c.name)

/-- Priority 1 of `_find_best_match`: when a collector number was extracted,
filter the candidates whose catalog `number` equals the `"num/den"` rendering
(`exact_matches`, a fresh list), and return the first of them after sorting
by name similarity when a truthy name is available. -/
def exactNumberResult (info : CardQueryInfo) (cards : List ResolvedCard) :
    Option ResolvedCard :=
  match info.collector_number with
  | none => none
  | some cn =>
    let numberStr := collectorNumberStr cn
    let exactMatches := cards.filter (fun c => c.number = numberStr)
    if exactMatches = [] then none
    else
      match truthyName info.name with
      | some nm => (sortByKeyDesc (nameSimKey nm) exactMatches).head?
      | none => exactMatches.head?

/-- `PokemonTCGResolver._find_best_match` from `src/resolve/poketcg.py`
(lines 168–205); `find_best_match` (lines 110–166) runs the same logic on
`ResolvedCard` candidates.  The result pair carries, besides the returned
best match, the caller's candidate list as it stands after the call —
`cards.sort(...)` in Priority 2 mutates it in place, while Priority 1 sorts
the fresh `exact_matches` list only. -/
def findBestMatch (info : CardQueryInfo) (cards : List ResolvedCard) :
    Option ResolvedCard × List ResolvedCard :=
  -- `if not cards: return None`
  if cards = [] then (none, cards)
  else
    -- Priority 1: exact number match against the "num/den" rendering
    match exactNumberResult info cards with
    | some c => (some c, cards)
    | none =>
      -- Priority 2: name-similarity ranking, sorting `cards` in place
      match truthyName info.name with
      | some nm =>
        let sorted := sortByKeyDesc (nameSimKey nm) cards
        (sorted.head?, sorted)
      | none =>
        -- Priority 3: first card
        (cards.head?, cards)

/-! ## HTTP layer: `PokemonTCGResolver._request_with_backoff`

A run of the method is determined by the sequence of outcomes the server
produces, one per attempt: either an HTTP response with a status code and a
JSON body, or a network-level exception (timeout / connection error) raised
by `session.get`.  The method loops over `enumerate([0.0, *BACKOFF_S])`
(four attempts), sleeping `delay` before each retry. -/

/-- A raw set object inside a catalog card record (`card_data["set"]`). -/
structure RawSet where
  name : Option String
  id : Option String
  releaseDate : Option String := none
  deriving Repr, DecidableEq

/-- A raw card record from the catalog response's `data` array; every field
the API may omit is optional. -/
structure RawCard where
  id : Option String
  name : Option String
  number : Option String := none
  set : Option RawSet
  rarity : Option String := none
  images : List (String × String) := []
  tcgplayer : Option String := none
  cardmarket : Option String := none
  deriving Repr, DecidableEq

/-- The parsed JSON body of a catalog response: `response_data.get("data", [])`
reads the optional `data` array. -/
structure ResponseJson where
  data : Option (List RawCard)
  deriving Repr, DecidableEq

/-- What the server does on one attempt: an HTTP response, or a network-level
exception raised before any status code exists. -/
inductive AttemptOutcome where
  | status (code : Nat) (body : ResponseJson)
  | netExc
  deriving Repr, DecidableEq

/-- How a `_request_with_backoff` call terminates. -/
inductive RequestResult where
  /-- `return await response.json()` -/
  | ok (body : ResponseJson)
  /-- `response.raise_for_status()` raised `aiohttp.ClientResponseError`
  and the except-clause re-raised it -/
  | httpError (code : Nat)
  /-- a network-level exception (not an `aiohttp.ClientResponseError`)
  escaped — no except-clause catches it -/
  | netError
  /-- `raise RuntimeError("All retry attempts failed")` after the loop -/
  | loopExhausted
  deriving Repr, DecidableEq

/-- `RequestResult` values that are raised exceptions rather than returns. -/
def RequestResult.isErr : RequestResult → Bool
  | .ok _ => false
  | _ => true

/-- The statuses `_request_with_backoff` treats as retryable:
`(429, 500, 502, 503, 504)`. -/
def RETRYABLE_STATUSES : List Nat := [429, 500, 502, 503, 504]

/-- The loop body of `_request_with_backoff` over the remaining
`(attempt, delay)` pairs, accumulating the backoff sleeps performed.
Per iteration: sleep `delay` if positive; on a retryable status with
`attempt < len(BACKOFF_S)` continue; otherwise `raise_for_status` (statuses
≥ 400 raise) and return the body; a network exception propagates at once
because only `aiohttp.ClientResponseError` is caught. -/
def attemptLoop (outcomes : Nat → AttemptOutcome) :
    List (Nat × ℚ) → List ℚ → RequestResult × List ℚ
  | [], slept => (.loopExhausted, slept)
  | (attempt, delay) :: rest, slept =>
    let slept := if 0 < delay then slept ++ [delay] else slept
    match outcomes attempt with
    | .netExc => (.netError, slept)
    | .status code body =>
      if code ∈ RETRYABLE_STATUSES ∧ attempt < BACKOFF_S.length then
        attemptLoop outcomes rest slept
      else if 400 ≤ code then (.httpError code, slept)
      else (.ok body, slept)

/-- `PokemonTCGResolver._request_with_backoff` from `src/resolve/poketcg.py`
(lines 88–108), as a function of the per-attempt server outcomes.  Returns
the terminal result together with the list of backoff sleeps performed
(`asyncio.sleep(delay)` for the positive delays only). -/
def requestWithBackoff (outcomes : Nat → AttemptOutcome) : RequestResult × List ℚ :=
  attemptLoop outcomes ((List.range (BACKOFF_S.length + 1)).zip (0 :: BACKOFF_S)) []

/-- `PokemonTCGResolver._parse_card_data` (lines 207–229): `None` unless the
required fields `id`, `name`, `set` are present; a missing `set.name` or
`set.id` raises `KeyError`, caught and mapped to `None`. -/
def parseCardData (card_data : RawCard) : Option ResolvedCard :=
  match card_data.id, card_data.name, card_data.set with
  | some id, some name, some s =>
    match s.name, s.id with
    | some setName, some setId =>
      some { card_id := id
             name := name
             number := card_data.number.getD ""
             set_name := setName
             set_id := setId
             rarity := card_data.rarity
             images := card_data.images
             raw_tcgplayer := card_data.tcgplayer
             raw_cardmarket := card_data.cardmarket
             set_release_date := s.releaseDate }
    | _, _ => none
  | _, _, _ => none

/-- `PokemonTCGResolver.search_cards` (lines 231–250): issues the request,
converts the first `limit` records of the `data` array that parse, and maps
*every* exception — including an exhausted-retry `ClientResponseError` —
to the empty list via the blanket `except Exception: return []`. -/
def searchCards (outcomes : Nat → AttemptOutcome) (limit : Nat) : List ResolvedCard :=
  match (requestWithBackoff outcomes).1 with
  | .ok body => ((body.data.getD []).take limit).filterMap parseCardData
  | _ => []

/-- `PokemonTCGResolver.resolve_card` (lines 252–292): builds the query from
the truthy fields, returns `None` when there is nothing to query, otherwise
searches with `limit=10` and ranks with `_find_best_match`; the blanket
`except Exception: return None` maps any escaping error to `None`. -/
def resolveCard (info : CardQueryInfo) (outcomes : Nat → AttemptOutcome) :
    Option ResolvedCard :=
  if info.collector_number = none ∧ truthyName info.name = none then none
  else
    match searchCards outcomes 10 with
    | [] => none
    | cards => (findBestMatch info cards).1

/-! ## `src/match/score.py` — `confidence_from` -/

/-- `confidence_from` from `src/match/score.py`:
`0.6 * max(0, 1 - distance) + 0.4 * min(1, inliers / 60)`. -/
def confidence_from (distance : ℚ) (inliers : Nat) : ℚ :=
  let d_score := max 0 (1 - distance)
  let i_score := min 1 ((inliers : ℚ) / 60)
  6/10 * d_score + 4/10 * i_score

/-! ## `src/store/cache.py` — `CacheManager`

The two SQLite tables the price path touches are modelled as row lists;
`INSERT OR REPLACE` removes any row with the same primary key first.
Timestamps (ISO strings compared lexicographically, which on the fixed
`datetime.isoformat()` format is chronological order) are rationals in
hours, so `timedelta(hours=H)` is plain subtraction. -/

/-- A decimal number literal, as the Python string `digits` scaled by
`10^scale` renders it: `⟨35, 1⟩` is `"3.5"`, `⟨350, 2⟩` is `"3.50"`.
Distinct representations are distinct strings, so equality of `Dec`
values is equality of the Python strings.  The empty string (falsy in
Python) is represented by `Option.none` at use sites. -/
structure Dec where
  digits : Nat
  scale : Nat
  deriving Repr, DecidableEq

/-- The rational value `float(s)` parses a decimal string to (exact for the
magnitudes this development evaluates). -/
def Dec.val (d : Dec) : ℚ := (d.digits : ℚ) / 10 ^ d.scale

/-- `PriceData` from `src/pricing/poketcg_prices.py`: flattened string price
fields (empty string ≙ `none`) plus the source tags list. -/
structure PriceData where
  tcgplayer_market_usd : Option Dec
  cardmarket_trend_eur : Option Dec
  cardmarket_avg30_eur : Option Dec
  pricing_updatedAt_tcgplayer : String := ""
  pricing_updatedAt_cardmarket : String := ""
  price_sources : List String
  deriving Repr, DecidableEq

/-- A row of the `cards` table. -/
structure CardRowDb where
  card_id : String
  name : String
  set_id : String
  set_name : String
  number : String
  rarity : Option String
  created_at : ℚ
  deriving Repr, DecidableEq

/-- A row of the `prices` table (`PRIMARY KEY (card_id, source)`);
`REAL` columns are nullable rationals, `TEXT` columns nullable strings,
`sources_json` a nullable JSON array of strings. -/
structure PriceRowDb where
  card_id : String
  source : String
  updated_at : ℚ
  tcgplayer_market_usd : Option ℚ
  cardmarket_trend_eur : Option ℚ
  cardmarket_avg30_eur : Option ℚ
  pricing_updatedAt_tcgplayer : Option String
  pricing_updatedAt_cardmarket : Option String
  sources_json : Option (List String)
  deriving Repr, DecidableEq

/-- The cache database state: the `cards` and `prices` tables. -/
structure CacheState where
  cards : List CardRowDb
  prices : List PriceRowDb
  deriving Repr, DecidableEq

/-- `CacheManager._float_to_string` (lines 85–93): `None → ""`, otherwise
`f"{float(value):.2f}"` — two-decimal formatting (exact: every value it is
applied to in this development already has at most two decimals). -/
def floatToString (value : Option ℚ) : Option Dec :=
  match value with
  | none => none
  | some q => some ⟨(⌊q * 100 + 1/2⌋).toNat, 2⟩

/-- `CacheManager.upsert_card` (lines 159–187): `INSERT OR REPLACE` into
`cards` keyed on `card_id`, with `created_at = datetime.now()`. -/
def upsertCard (st : CacheState) (card : ResolvedCard) (now : ℚ) : CacheState :=
  let row : CardRowDb :=
    { card_id := card.card_id
      name := card.name
      set_id := card.set_id
      set_name := card.set_name
      number := card.number
      rarity := card.rarity
      created_at := now }
  { st with cards := row :: st.cards.filter (fun c => ¬ c.card_id = card.card_id) }

/-- The `prices` row `upsert_prices` writes: `updated_at = datetime.now()`,
truthy price strings parsed back to floats (`float(x) if x else None`),
`sources_json = json.dumps(price_data.price_sources)`. -/
def priceRowOf (card_id : String) (price_data : PriceData) (source : String)
    (now : ℚ) : PriceRowDb :=
  { card_id := card_id
    source := source
    updated_at := now
    tcgplayer_market_usd := price_data.tcgplayer_market_usd.map Dec.val
    cardmarket_trend_eur := price_data.cardmarket_trend_eur.map Dec.val
    cardmarket_avg30_eur := price_data.cardmarket_avg30_eur.map Dec.val
    pricing_updatedAt_tcgplayer := some price_data.pricing_updatedAt_tcgplayer
    pricing_updatedAt_cardmarket := some price_data.pricing_updatedAt_cardmarket
    sources_json := some price_data.price_sources }

/-- `CacheManager.upsert_prices` (lines 189–241): `INSERT OR REPLACE` into
`prices` keyed on `(card_id, source)`. -/
def upsertPrices (st : CacheState) (card_id : String) (price_data : PriceData)
    (source : String) (now : ℚ) : CacheState :=
  { st with
      prices :=
        priceRowOf card_id price_data source now ::
          st.prices.filter (fun p => ¬ (p.card_id = card_id ∧ p.source = source)) }

/-- `ORDER BY p.updated_at DESC LIMIT 1`: the first row of maximal
`updated_at` among the filtered rows. -/
def pickFreshest : List PriceRowDb → Option PriceRowDb
  | [] => none
  | r :: rs =>
    match pickFreshest rs with
    | none => some r
    | some best => if best.updated_at > r.updated_at then some best else some r

/-- The read query's row condition: `p.card_id = ?`, `p.updated_at > cutoff`,
and the `JOIN cards c ON p.card_id = c.card_id` (the row only survives when a
matching `cards` row exists). -/
def priceRowMatches (st : CacheState) (card_id : String) (cutoff : ℚ)
    (p : PriceRowDb) : Bool :=
  decide (p.card_id = card_id) && decide (cutoff < p.updated_at) &&
    st.cards.any (fun c => decide (c.card_id = p.card_id))

/-- The `PriceData` the hit branch re-assembles from the selected row, via
`_float_to_string`, `row[...] or ""`, and
`json.loads(sources_json) if sources_json else ["pokemontcg.io"]`. -/
def priceDataOfRow (row : PriceRowDb) : PriceData :=
  { tcgplayer_market_usd := floatToString row.tcgplayer_market_usd
    cardmarket_trend_eur := floatToString row.cardmarket_trend_eur
    cardmarket_avg30_eur := floatToString row.cardmarket_avg30_eur
    pricing_updatedAt_tcgplayer := row.pricing_updatedAt_tcgplayer.getD ""
    pricing_updatedAt_cardmarket := row.pricing_updatedAt_cardmarket.getD ""
    price_sources := row.sources_json.getD ["pokemontcg.io"] }

/-- `CacheManager.get_price_data_from_cache` (lines 95–157):
`SELECT p.*, c.name FROM prices p JOIN cards c ON p.card_id = c.card_id
WHERE p.card_id = ? AND p.updated_at > ? ORDER BY p.updated_at DESC LIMIT 1`
with the cutoff `datetime.now() - timedelta(hours=max_age_hours)`, i.e.
`now - max_age_hours`. -/
def getPriceDataFromCache (st : CacheState) (card_id : String)
    (max_age_hours : ℚ) (now : ℚ) : Option PriceData :=
  match pickFreshest
      (st.prices.filter (priceRowMatches st card_id (now - max_age_hours))) with
  | none => none
  | some row => some (priceDataOfRow row)

/-! ## `src/cli.py` — the batch "price" driver's OCR gate

`price` fetches `card_cache.get_new_scans()` and runs
`_process_single_scan` on each row inside a `try` whose `except` marks the
scan `ERROR`.  The scan dictionaries and their Python-dict indexing (a
missing key raises `KeyError`) are embedded directly. -/

/-- A dynamically-typed Python value, as far as the scan dictionaries go. -/
inductive PyVal where
  | pynone
  | str (s : String)
  | int (n : Int)
  | dict (entries : List (String × PyVal))

/-- Python truthiness for the values above. -/
def PyVal.truthy : PyVal → Bool
  | .pynone => false
  | .str s => s != ""
  | .int n => n != 0
  | .dict es => !es.isEmpty

/-- First binding of a key in a dict entry list. -/
def dictFind (es : List (String × PyVal)) (k : String) : Option PyVal :=
  (es.find? (fun e => e.1 = k)).map (·.2)

/-- `d[k]` — raises `KeyError` when the key is absent. -/
def pyIndex (d : PyVal) (k : String) : Except String PyVal :=
  match d with
  | .dict es =>
    match dictFind es k with
    | some v => .ok v
    | none => .error ("KeyError: " ++ k)
  | _ => .error "TypeError: not a dict"

/-- `d.get(k)` — `None` when the key is absent. -/
def pyGet (d : PyVal) (k : String) : PyVal :=
  match d with
  | .dict es => (dictFind es k).getD .pynone
  | _ => .pynone

/-- A row of the `scans` table as `get_new_scans` reads it; the `ocr_json`
TEXT column is `none` when NULL or empty (falsy), otherwise the parsed
JSON object. -/
structure ScanRow where
  id : Int
  ts : String
  image_path : String
  ocr_json : Option PyVal
  status : String

/-- The dictionary `CacheManager.get_new_scans` (lines 313–345) builds for
each row: keys `id`, `ts`, `image_path`, `ocr_data`
(`json.loads(row["ocr_json"]) if row["ocr_json"] else {}`), `status`. -/
def scanRowToDict (r : ScanRow) : PyVal :=
  .dict [ ("id", .int r.id)
        , ("ts", .str r.ts)
        , ("image_path", .str r.image_path)
        , ("ocr_data", r.ocr_json.getD (.dict []))
        , ("status", .str r.status) ]

/-- `_has_valid_ocr_data` from `src/cli.py` (lines 611–613):
`return scan["ocr_json"] and scan["ocr_json"].get("name")`, evaluated with
Python's short-circuit `and`; the subscript raises `KeyError` when the
`ocr_json` key is absent.  The returned value's truthiness is what
`if not _has_valid_ocr_data(scan):` consumes. -/
def hasValidOcrData (scan : PyVal) : Except String Bool := do
  let v ← pyIndex scan "ocr_json"
  if v.truthy then
    let v2 ← pyIndex scan "ocr_json"
    pure (PyVal.truthy (pyGet v2 "name"))
  else
    pure false

/-- The status the batch driver writes for a scan at the OCR gate. -/
inductive ScanGateOutcome where
  /-- `update_scan_status(scan["id"], "SKIPPED")` inside `_process_single_scan` -/
  | skipped
  /-- the exception escaped `_process_single_scan` and `_process_all_scans`'s
  `except` wrote `update_scan_status(scan["id"], "ERROR")` -/
  | error
  /-- the gate passed; resolution and pricing work continues -/
  | proceed
  deriving Repr, DecidableEq

/-- The OCR gate of `_process_single_scan` (lines 569–607) as run under
`_process_all_scans`'s per-scan `try/except` (lines 545–564): an exception
anywhere in the gate becomes an `ERROR` status write. -/
def processSingleScanGate (scan : PyVal) : ScanGateOutcome :=
  match hasValidOcrData scan with
  | .error _ => .error
  | .ok false => .skipped
  | .ok true => .proceed

/-! ## Concrete example inputs

Fixed inputs used by the evaluation theorems, witnesses and counterexamples
below.  The card values mirror the fixtures of `tests/test_resolve.py`. -/

/-- The Base Set Charizard fixture: catalog `number = "4"`. -/
def charizardBase1 : ResolvedCard :=
  { card_id := "base1-4", name := "Charizard", number := "4",
    set_name := "Base Set", set_id := "base1", rarity := some "Holo Rare",
    set_release_date := some "1999-01-09" }

/-- A second Charizard whose catalog number is neither `"4"` nor `"4/102"`. -/
def charizardNum7 : ResolvedCard :=
  { card_id := "sx-7", name := "Charizard", number := "7",
    set_name := "Set X", set_id := "sx", rarity := none }

/-- A card whose catalog number is the full fraction string `"4/102"`. -/
def charizardFraction : ResolvedCard :=
  { card_id := "sy-4", name := "Charizard", number := "4/102",
    set_name := "Set Y", set_id := "sy", rarity := none }

/-- The `test_find_best_match_low_confidence` query:
`CardInfo(name="CompletelyDifferent", collector_number={'num':999,'den':999})`. -/
def lowConfidenceInfo : CardQueryInfo :=
  { name := some "CompletelyDifferent", collector_number := some ⟨999, 999⟩ }

/-- The canonical extracted text `{name: "Charizard", number: {num:4, den:102}}`. -/
def extractedCharizard : CardQueryInfo :=
  { name := some "Charizard", collector_number := some ⟨4, 102⟩ }

/-- Query with a name and no collector number. -/
def infoNameAB : CardQueryInfo := { name := some "ab", collector_number := none }

/-- Candidate whose name exactly matches `infoNameAB`. -/
def cardAB : ResolvedCard :=
  { card_id := "cab", name := "ab", number := "1", set_name := "S",
    set_id := "s", rarity := none }

/-- Candidate whose name shares no characters with `infoNameAB`. -/
def cardZZ : ResolvedCard :=
  { card_id := "czz", name := "zz", number := "2", set_name := "S",
    set_id := "s", rarity := none }

/-- A response body with an empty `data` array: a valid no-candidate answer. -/
def emptyBody : ResponseJson := { data := some [] }

/-- A server that answers HTTP 500 on every attempt: retries exhaust. -/
def alwaysFail500 : Nat → AttemptOutcome := fun _ => .status 500 emptyBody

/-- A server that answers HTTP 200 with an empty `data` array. -/
def okEmptyData : Nat → AttemptOutcome := fun _ => .status 200 emptyBody

/-- A network-level exception on the first attempt, then a clean 200. -/
def netExcThenOk : Nat → AttemptOutcome :=
  fun n => if n = 0 then .netExc else .status 200 emptyBody

/-- HTTP 500 on the first attempt, then a clean 200. -/
def fail500ThenOk : Nat → AttemptOutcome :=
  fun n => if n = 0 then .status 500 emptyBody else .status 200 emptyBody

/-- HTTP 501 (a 5xx status) on the first attempt, then a clean 200. -/
def fail501ThenOk : Nat → AttemptOutcome :=
  fun n => if n = 0 then .status 501 emptyBody else .status 200 emptyBody

/-- A `cards` table row with identifier `"x"`. -/
def cardRowX : CardRowDb :=
  { card_id := "x", name := "X", set_id := "s", set_name := "S",
    number := "1", rarity := none, created_at := 0 }

/-- A cache holding the card `"x"` and no prices yet. -/
def cacheWithCardX : CacheState := { cards := [cardRowX], prices := [] }

/-- A `PriceData` whose market price is the one-decimal string `"3.5"` and
whose sources list is empty. -/
def priceDataRaw35 : PriceData :=
  { tcgplayer_market_usd := some ⟨35, 1⟩, cardmarket_trend_eur := none,
    cardmarket_avg30_eur := none, pricing_updatedAt_tcgplayer := "2024/03/01",
    pricing_updatedAt_cardmarket := "", price_sources := [] }

/-- A `PriceData` whose price strings are all empty or two-decimal canonical
(`"12.50"`, `"0.00"`) and whose sources list is empty. -/
def priceDataCanonical : PriceData :=
  { tcgplayer_market_usd := some ⟨1250, 2⟩, cardmarket_trend_eur := none,
    cardmarket_avg30_eur := some ⟨0, 2⟩,
    pricing_updatedAt_tcgplayer := "2024/03/01",
    pricing_updatedAt_cardmarket := "", price_sources := [] }

/-- A fresh `prices` row for card `"y"` with no matching `cards` row. -/
def orphanPriceRow : PriceRowDb :=
  { card_id := "y", source := "pokemontcg.io", updated_at := 5,
    tcgplayer_market_usd := some 10, cardmarket_trend_eur := none,
    cardmarket_avg30_eur := none, pricing_updatedAt_tcgplayer := some "t",
    pricing_updatedAt_cardmarket := some "", sources_json := some ["pokemontcg.io"] }

/-- A cache holding a price for `"y"` but no `cards` row at all. -/
def cacheOrphanPrice : CacheState := { cards := [], prices := [orphanPriceRow] }

/-- A NEW scan row whose `ocr_json` column is NULL: no extracted name at all. -/
def scanRowNoOcr : ScanRow :=
  { id := 1, ts := "2024-03-01T00:00:00", image_path := "output/images/card_1.jpg",
    ocr_json := none, status := "NEW" }

/-- A NEW scan row with OCR data but no extracted name. -/
def scanRowNoName : ScanRow :=
  { id := 2, ts := "2024-03-01T00:00:01", image_path := "output/images/card_2.jpg",
    ocr_json := some (.dict [("collector_number", .str "4/102"), ("confidence", .int 80)]),
    status := "NEW" }

/-! ## Lemmas about the stable sort and Priority-1 selection -/

lemma orderedInsertDesc_ne_nil (key : ResolvedCard → ℚ) (a : ResolvedCard)
    (l : List ResolvedCard) : orderedInsertDesc key a l ≠ [] := by
  cases l with
  | nil => simp [orderedInsertDesc]
  | cons b t =>
    unfold orderedInsertDesc
    split <;> simp

lemma mem_orderedInsertDesc {key : ResolvedCard → ℚ} {a b : ResolvedCard}
    {l : List ResolvedCard} : b ∈ orderedInsertDesc key a l ↔ b = a ∨ b ∈ l := by
  induction l with
  | nil => simp [orderedInsertDesc]
  | cons c t ih =>
    unfold orderedInsertDesc
    split
    · simp
    · simp only [List.mem_cons, ih]
      tauto

lemma mem_sortByKeyDesc {key : ResolvedCard → ℚ} {b : ResolvedCard}
    {l : List ResolvedCard} : b ∈ sortByKeyDesc key l ↔ b ∈ l := by
  induction l with
  | nil => simp [sortByKeyDesc]
  | cons a t ih =>
    unfold sortByKeyDesc
    rw [mem_orderedInsertDesc]
    simp [ih]

lemma sortByKeyDesc_eq_nil_iff {key : ResolvedCard → ℚ} {l : List ResolvedCard} :
    sortByKeyDesc key l = [] ↔ l = [] := by
  cases l with
  | nil => simp [sortByKeyDesc]
  | cons a t =>
    simp only [sortByKeyDesc]
    constructor
    · intro h
      exact absurd h (orderedInsertDesc_ne_nil key a (sortByKeyDesc key t))
    · intro h
      exact absurd h (by simp)

/-- When some candidate's catalog number equals the `"num/den"` rendering,
Priority 1 fires and returns one of those exact matches, whatever the list
order. -/
lemma exactNumberResult_of_filter_ne_nil {info : CardQueryInfo}
    {cn : CollectorNumber} {cards : List ResolvedCard}
    (h : info.collector_number = some cn)
    (hne : cards.filter (fun c => c.number = collectorNumberStr cn) ≠ []) :
    ∃ r, exactNumberResult info cards = some r ∧
      r.number = collectorNumberStr cn := by
  unfold exactNumberResult
  rw [h]
  simp only
  rw [if_neg hne]
  have hmem_num : ∀ r, r ∈ cards.filter (fun c => c.number = collectorNumberStr cn) →
      r.number = collectorNumberStr cn := by
    intro r hr
    have := (List.mem_filter.mp hr).2
    exact of_decide_eq_true this
  cases htn : truthyName info.name with
  | some nm =>
    have hsne : sortByKeyDesc (nameSimKey nm)
        (cards.filter (fun c => c.number = collectorNumberStr cn)) ≠ [] := by
      rw [Ne, sortByKeyDesc_eq_nil_iff]
      exact hne
    cases hh : (sortByKeyDesc (nameSimKey nm)
        (cards.filter (fun c => c.number = collectorNumberStr cn))).head? with
    | none => exact absurd (List.head?_eq_none_iff.mp hh) hsne
    | some r =>
      refine ⟨r, ?_, hmem_num r (mem_sortByKeyDesc.mp (List.mem_of_mem_head? hh))⟩
      exact hh
  | none =>
    cases hh : (cards.filter (fun c => c.number = collectorNumberStr cn)).head? with
    | none => exact absurd (List.head?_eq_none_iff.mp hh) hne
    | some r => exact ⟨r, rfl, hmem_num r (List.mem_of_mem_head? hh)⟩

/-! ## Claim C1 — resolver acceptance threshold -/

/-- Claim C1 (evaluation at the failing input): the repository's own fixture
`test_find_best_match_low_confidence` — query name `"CompletelyDifferent"`,
collector number `999/999`, single candidate Charizard — must, per the claim
(and per the test's `assert best_card is None`), resolve to no match because
the best candidate's normalized score is far below the acceptance threshold.
`_find_best_match` has no acceptance threshold at all and returns the
low-similarity candidate. -/
theorem C1_theorem :
    (findBestMatch lowConfidenceInfo [charizardBase1]).1 = some charizardBase1 := by
  decide

/-! ## Claim C4 — exact-number matching -/

/-- Counterexample to claim C4: the extracted fraction `{num:4, den:102}` is
rendered as the string `"4/102"` and compared with the catalog `number`
verbatim, so the candidate with catalog number `"4"` is *not* an exact match;
with two equal-name-similarity candidates, the first of the list
(`charizardNum7`, number `"7"`) is returned instead of the number-`"4"`
candidate the claim designates. -/
theorem C4_counterexample :
    charizardBase1.number = "4" ∧
    (findBestMatch extractedCharizard [charizardNum7, charizardBase1]).1 =
      some charizardNum7 ∧
    charizardNum7.number ≠ "4" := by
  refine ⟨rfl, ?_, by decide⟩
  simp [findBestMatch, exactNumberResult, extractedCharizard, charizardNum7,
    charizardBase1, collectorNumberStr, truthyName, sortByKeyDesc,
    orderedInsertDesc, nameSimKey, fuzzRatioPct, lowerStr, lcs, lcsFuel,
    String.length]

/-- Claim C4 (amended): best-match selection treats a candidate as an exact
number match only when its catalog number equals the full `"num/den"`
rendering of the extracted fraction; whenever such a candidate exists, one of
them is returned, regardless of the candidates' list order. -/
theorem C4_theorem (info : CardQueryInfo) (cn : CollectorNumber)
    (cards : List ResolvedCard) (c₀ : ResolvedCard)
    (h : info.collector_number = some cn) (hmem : c₀ ∈ cards)
    (hnum : c₀.number = collectorNumberStr cn) :
    ∃ r, (findBestMatch info cards).1 = some r ∧
      r.number = collectorNumberStr cn := by
  have hne : cards.filter (fun c => c.number = collectorNumberStr cn) ≠ [] := by
    intro hnil
    have hin : c₀ ∈ cards.filter (fun c => c.number = collectorNumberStr cn) :=
      List.mem_filter.mpr ⟨hmem, by simp [hnum]⟩
    rw [hnil] at hin
    simp at hin
  obtain ⟨r, hr, hrnum⟩ := exactNumberResult_of_filter_ne_nil h hne
  have hcards : cards ≠ [] := by
    intro hc
    subst hc
    simp at hmem
  refine ⟨r, ?_, hrnum⟩
  unfold findBestMatch
  rw [if_neg hcards, hr]

/-- Witness for C4: a candidate list containing a card whose catalog number
is the literal string `"4/102"` resolves to a `"4/102"` candidate. -/
theorem C4_witness :
    ∃ r, (findBestMatch extractedCharizard [charizardNum7, charizardFraction]).1 =
      some r ∧ r.number = collectorNumberStr ⟨4, 102⟩ :=
  C4_theorem extractedCharizard ⟨4, 102⟩ [charizardNum7, charizardFraction]
    charizardFraction rfl (by simp) rfl

/-! ## Claim C10 — in-place mutation of the caller's candidate list -/

/-- Claim C10: whenever a truthy extracted name is present and Priority 1
does not fire (no candidate carries the `"num/den"` exact number), the
caller's candidate list is sorted in place, descending by name similarity
(stably, as Python's `list.sort` guarantees) — and the sorted list can
differ from the list that was passed in. -/
theorem C10_theorem :
    (∀ (info : CardQueryInfo) (cards : List ResolvedCard) (nm : String),
      truthyName info.name = some nm →
      (∀ cn, info.collector_number = some cn →
        ∀ c ∈ cards, c.number ≠ collectorNumberStr cn) →
      (findBestMatch info cards).2 = sortByKeyDesc (nameSimKey nm) cards) ∧
    (findBestMatch infoNameAB [cardZZ, cardAB]).2 ≠ [cardZZ, cardAB] := by
  constructor
  · intro info cards nm htn hno
    have hexact : exactNumberResult info cards = none := by
      unfold exactNumberResult
      cases hcn : info.collector_number with
      | none => rfl
      | some cn =>
        simp only
        rw [if_pos]
        apply List.filter_eq_nil_iff.mpr
        intro c hc
        simp only [decide_eq_true_eq]
        exact hno cn hcn c hc
    cases hcs : cards with
    | nil => simp [findBestMatch, sortByKeyDesc]
    | cons a t =>
      rw [← hcs]
      have hcards : cards ≠ [] := by
        rw [hcs]
        simp
      unfold findBestMatch
      rw [if_neg hcards, hexact, htn]
  · simp [findBestMatch, exactNumberResult, infoNameAB, cardAB, cardZZ,
      truthyName, sortByKeyDesc, orderedInsertDesc, nameSimKey, fuzzRatioPct,
      lowerStr, lcs, lcsFuel, String.length]

/-- Witness for C10: the two-candidate list `[cardZZ, cardAB]` (similarities
0 and 100 to the query name) comes back reordered as its descending sort. -/
theorem C10_witness :
    (findBestMatch infoNameAB [cardZZ, cardAB]).2 =
      sortByKeyDesc (nameSimKey "ab") [cardZZ, cardAB] :=
  C10_theorem.1 infoNameAB [cardZZ, cardAB] "ab" rfl
    (by intro cn hcn; simp [infoNameAB] at hcn)

/-! ## Lemmas about the backoff loop -/

/-- The attempt schedule `enumerate([0.0, *BACKOFF_S])`, spelled out. -/
lemma requestWithBackoff_unfold (outcomes : Nat → AttemptOutcome) :
    requestWithBackoff outcomes =
      attemptLoop outcomes [(0, 0), (1, 2/10), (2, 1), (3, 3)] [] := rfl

/-- One-step equation for the loop on a cons cell. -/
lemma attemptLoop_cons (outcomes : Nat → AttemptOutcome) (attempt : Nat)
    (delay : ℚ) (rest : List (Nat × ℚ)) (slept : List ℚ) :
    attemptLoop outcomes ((attempt, delay) :: rest) slept =
      (let slept := if 0 < delay then slept ++ [delay] else slept
       match outcomes attempt with
       | .netExc => (.netError, slept)
       | .status code body =>
         if code ∈ RETRYABLE_STATUSES ∧ attempt < BACKOFF_S.length then
           attemptLoop outcomes rest slept
         else if 400 ≤ code then (.httpError code, slept)
         else (.ok body, slept)) := rfl

lemma retryable_ge_400 {c : Nat} (h : c ∈ RETRYABLE_STATUSES) : 400 ≤ c := by
  simp only [RETRYABLE_STATUSES, List.mem_cons, List.not_mem_nil, or_false] at h
  rcases h with rfl | rfl | rfl | rfl | rfl <;> norm_num

lemma not_retryable_of_lt_400 {c : Nat} (h : c < 400) : c ∉ RETRYABLE_STATUSES :=
  fun hc => absurd (retryable_ge_400 hc) (by omega)

/-- Four retryable statuses in a row exhaust the retry budget: the loop
sleeps the whole `BACKOFF_S` schedule and re-raises the final error. -/
lemma backoff_exhausted {outcomes : Nat → AttemptOutcome}
    {c0 c1 c2 c3 : Nat} {b0 b1 b2 b3 : ResponseJson}
    (h0 : outcomes 0 = .status c0 b0) (hc0 : c0 ∈ RETRYABLE_STATUSES)
    (h1 : outcomes 1 = .status c1 b1) (hc1 : c1 ∈ RETRYABLE_STATUSES)
    (h2 : outcomes 2 = .status c2 b2) (hc2 : c2 ∈ RETRYABLE_STATUSES)
    (h3 : outcomes 3 = .status c3 b3) (hc3 : c3 ∈ RETRYABLE_STATUSES) :
    requestWithBackoff outcomes = (.httpError c3, BACKOFF_S) := by
  have hge : 400 ≤ c3 := retryable_ge_400 hc3
  rw [requestWithBackoff_unfold, attemptLoop_cons]
  simp only [h0]
  rw [if_neg (by norm_num : ¬((0 : ℚ) < 0)),
    if_pos ⟨hc0, by norm_num [BACKOFF_S]⟩, attemptLoop_cons]
  simp only [h1]
  rw [if_pos (by norm_num : (0 : ℚ) < 2/10),
    if_pos ⟨hc1, by norm_num [BACKOFF_S]⟩, attemptLoop_cons]
  simp only [h2]
  rw [if_pos (by norm_num : (0 : ℚ) < 1),
    if_pos ⟨hc2, by norm_num [BACKOFF_S]⟩, attemptLoop_cons]
  simp only [h3]
  rw [if_pos (by norm_num : (0 : ℚ) < 3),
    if_neg (by norm_num [BACKOFF_S] :
      ¬(c3 ∈ RETRYABLE_STATUSES ∧ 3 < BACKOFF_S.length)),
    if_pos hge]
  norm_num [BACKOFF_S]

/-- A retryable first attempt followed by a 200 returns the second body after
exactly one backoff sleep of 0.2 s. -/
lemma backoff_retry_then_ok {outcomes : Nat → AttemptOutcome} {c : Nat}
    {b b' : ResponseJson} (h0 : outcomes 0 = .status c b)
    (hc : c ∈ RETRYABLE_STATUSES) (h1 : outcomes 1 = .status 200 b') :
    requestWithBackoff outcomes = (.ok b', [2/10]) := by
  rw [requestWithBackoff_unfold, attemptLoop_cons]
  simp only [h0]
  rw [if_neg (by norm_num : ¬((0 : ℚ) < 0)),
    if_pos ⟨hc, by norm_num [BACKOFF_S]⟩, attemptLoop_cons]
  simp only [h1]
  rw [if_pos (by norm_num : (0 : ℚ) < 2/10),
    if_neg (by norm_num [RETRYABLE_STATUSES] :
      ¬((200 : Nat) ∈ RETRYABLE_STATUSES ∧ 1 < BACKOFF_S.length)),
    if_neg (by norm_num : ¬(400 ≤ 200))]
  norm_num

/-- A non-retryable error status on the first attempt raises at once. -/
lemma backoff_fatal_first {outcomes : Nat → AttemptOutcome} {c : Nat}
    {b : ResponseJson} (h0 : outcomes 0 = .status c b)
    (hnc : c ∉ RETRYABLE_STATUSES) (hge : 400 ≤ c) :
    requestWithBackoff outcomes = (.httpError c, []) := by
  rw [requestWithBackoff_unfold, attemptLoop_cons]
  simp only [h0]
  rw [if_neg (by norm_num : ¬((0 : ℚ) < 0)),
    if_neg (by simp [hnc] : ¬(c ∈ RETRYABLE_STATUSES ∧ 0 < BACKOFF_S.length)),
    if_pos hge]

/-- A network-level exception on the first attempt propagates at once:
only `aiohttp.ClientResponseError` is caught. -/
lemma backoff_netExc_first {outcomes : Nat → AttemptOutcome}
    (h0 : outcomes 0 = .netExc) : requestWithBackoff outcomes = (.netError, []) := by
  rw [requestWithBackoff_unfold, attemptLoop_cons]
  simp only [h0]
  norm_num

/-- A success status on the first attempt returns its body with no sleeps. -/
lemma backoff_ok_first {outcomes : Nat → AttemptOutcome} {c : Nat}
    {b : ResponseJson} (h0 : outcomes 0 = .status c b) (hlt : c < 400) :
    requestWithBackoff outcomes = (.ok b, []) := by
  rw [requestWithBackoff_unfold, attemptLoop_cons]
  simp only [h0]
  rw [if_neg (by norm_num : ¬((0 : ℚ) < 0)),
    if_neg (by simp [not_retryable_of_lt_400 hlt] :
      ¬(c ∈ RETRYABLE_STATUSES ∧ 0 < BACKOFF_S.length)),
    if_neg (by omega : ¬(400 ≤ c))]

/-! ## Claim C2 — exhausted retries vs. "no match" -/

/-- Counterexample to claim C2: a server failing with HTTP 500 on all four
attempts is an exhausted-retry terminal failure
(`_request_with_backoff` raises), yet `search_cards` returns the empty list
and `resolve_card` returns `None` — exactly the values produced by a clean
HTTP 200 response whose `data` array is empty. -/
theorem C2_counterexample :
    (requestWithBackoff alwaysFail500).1 = .httpError 500 ∧
    searchCards alwaysFail500 10 = [] ∧
    searchCards okEmptyData 10 = [] ∧
    resolveCard extractedCharizard alwaysFail500 = none ∧
    resolveCard extractedCharizard okEmptyData = none := by
  have h500 : (requestWithBackoff alwaysFail500).1 = .httpError 500 := by
    rw [@backoff_exhausted alwaysFail500 500 500 500 500 emptyBody emptyBody
      emptyBody emptyBody rfl (by norm_num [RETRYABLE_STATUSES])
      rfl (by norm_num [RETRYABLE_STATUSES]) rfl (by norm_num [RETRYABLE_STATUSES])
      rfl (by norm_num [RETRYABLE_STATUSES])]
  have h200 : (requestWithBackoff okEmptyData).1 = .ok emptyBody := by
    rw [@backoff_ok_first okEmptyData 200 emptyBody rfl (by norm_num)]
  refine ⟨h500, ?_, ?_, ?_, ?_⟩
  · simp [searchCards, h500]
  · simp [searchCards, h200, emptyBody]
  · simp [resolveCard, searchCards, h500, extractedCharizard, truthyName]
  · simp [resolveCard, searchCards, h200, emptyBody, extractedCharizard, truthyName]

/-- Claim C2 (amended): `search_cards` catches every failure — an
exhausted-retry error included — behind `except Exception: return []`, and
`resolve_card` behind `except Exception: return None`; a terminal catalog
failure is therefore indistinguishable at this interface from a valid
response with no acceptable candidate. -/
theorem C2_theorem (outcomes : Nat → AttemptOutcome) (limit : Nat)
    (info : CardQueryInfo) (h : (requestWithBackoff outcomes).1.isErr = true) :
    searchCards outcomes limit = [] ∧ resolveCard info outcomes = none := by
  have hs : ∀ L, searchCards outcomes L = [] := by
    intro L
    cases hq : (requestWithBackoff outcomes).1 <;>
      simp [searchCards, hq, RequestResult.isErr] at h ⊢
  refine ⟨hs limit, ?_⟩
  unfold resolveCard
  rw [hs 10]
  split <;> rfl

/-- Witness for C2: the always-500 server satisfies the error hypothesis and
yields the empty list / `None`. -/
theorem C2_witness :
    searchCards alwaysFail500 7 = [] ∧
    resolveCard lowConfidenceInfo alwaysFail500 = none :=
  C2_theorem alwaysFail500 7 lowConfidenceInfo
    (by
      rw [@backoff_exhausted alwaysFail500 500 500 500 500 emptyBody emptyBody
        emptyBody emptyBody rfl
        (by norm_num [RETRYABLE_STATUSES]) rfl (by norm_num [RETRYABLE_STATUSES])
        rfl (by norm_num [RETRYABLE_STATUSES]) rfl (by norm_num [RETRYABLE_STATUSES])]
      rfl)

/-! ## Claim C5 — retry/backoff policy of `_request_with_backoff` -/

/-- Counterexample to claim C5: the claim says network-level exceptions are
retried exactly like 5xx responses, and that every 5xx is retried.  In the
code, a first-attempt HTTP 500 is retried (one 0.2 s backoff sleep, then the
second attempt's 200 is returned), but a first-attempt network exception
propagates immediately with no retry and no sleep, and a first-attempt
HTTP 501 (a 5xx status outside `(429, 500, 502, 503, 504)`) likewise fails
immediately. -/
theorem C5_counterexample :
    requestWithBackoff fail500ThenOk = (.ok emptyBody, [2/10]) ∧
    requestWithBackoff netExcThenOk = (.netError, []) ∧
    requestWithBackoff fail501ThenOk = (.httpError 501, []) := by
  refine ⟨?_, ?_, ?_⟩
  · exact @backoff_retry_then_ok fail500ThenOk 500 emptyBody emptyBody rfl
      (by norm_num [RETRYABLE_STATUSES]) rfl
  · exact @backoff_netExc_first netExcThenOk rfl
  · exact @backoff_fatal_first fail501ThenOk 501 emptyBody rfl
      (by norm_num [RETRYABLE_STATUSES]) (by norm_num)

/-- Claim C5 (amended): exactly the statuses `429, 500, 502, 503, 504` are
retried, after backoff sleeps following the fixed schedule `[0.2, 1.0, 3.0]`,
for at most `len(BACKOFF_S)` retries, after which the final error propagates;
any other HTTP error status — including the remaining 5xx statuses such as
501 — fails on its first occurrence without retry; and a network-level
exception is not caught at all (only `aiohttp.ClientResponseError` is), so it
propagates on its first occurrence without retry. -/
theorem C5_theorem :
    (∀ outcomes : Nat → AttemptOutcome,
      (∀ i < 4, ∃ c b, outcomes i = .status c b ∧ c ∈ RETRYABLE_STATUSES) →
      ∃ c, requestWithBackoff outcomes = (.httpError c, BACKOFF_S) ∧
        c ∈ RETRYABLE_STATUSES) ∧
    (∀ (outcomes : Nat → AttemptOutcome) (c : Nat) (b : ResponseJson),
      outcomes 0 = .status c b → c ∉ RETRYABLE_STATUSES → 400 ≤ c →
      requestWithBackoff outcomes = (.httpError c, [])) ∧
    (∀ outcomes : Nat → AttemptOutcome,
      outcomes 0 = .netExc → requestWithBackoff outcomes = (.netError, [])) ∧
    (∀ (outcomes : Nat → AttemptOutcome) (c : Nat) (b b' : ResponseJson),
      outcomes 0 = .status c b → c ∈ RETRYABLE_STATUSES →
      outcomes 1 = .status 200 b' →
      requestWithBackoff outcomes = (.ok b', [2/10])) := by
  refine ⟨?_, ?_, ?_, ?_⟩
  · intro outcomes h
    obtain ⟨c0, b0, h0, hc0⟩ := h 0 (by norm_num)
    obtain ⟨c1, b1, h1, hc1⟩ := h 1 (by norm_num)
    obtain ⟨c2, b2, h2, hc2⟩ := h 2 (by norm_num)
    obtain ⟨c3, b3, h3, hc3⟩ := h 3 (by norm_num)
    exact ⟨c3, backoff_exhausted h0 hc0 h1 hc1 h2 hc2 h3 hc3, hc3⟩
  · intro outcomes c b h0 hnc hge
    exact backoff_fatal_first h0 hnc hge
  · intro outcomes h0
    exact backoff_netExc_first h0
  · intro outcomes c b b' h0 hc h1
    exact backoff_retry_then_ok h0 hc h1

/-- Witness for C5: the always-429 server exhausts all retries, sleeps the
full `[0.2, 1.0, 3.0]` schedule, and propagates the final 429. -/
theorem C5_witness :
    ∃ c, requestWithBackoff (fun _ => .status 429 emptyBody) =
      (.httpError c, BACKOFF_S) ∧ c ∈ RETRYABLE_STATUSES :=
  C5_theorem.1 (fun _ => .status 429 emptyBody)
    (fun i _ => ⟨429, emptyBody, rfl, by simp [RETRYABLE_STATUSES]⟩)

/-! ## Lemmas about the cache read -/

lemma pickFreshest_mem : ∀ {l : List PriceRowDb} {r : PriceRowDb},
    pickFreshest l = some r → r ∈ l := by
  intro l
  induction l with
  | nil => intro r h; simp [pickFreshest] at h
  | cons a t ih =>
    intro r h
    cases hpf : pickFreshest t with
    | none =>
      have ha : pickFreshest (a :: t) = some a := by
        unfold pickFreshest
        rw [hpf]
      rw [ha] at h
      injection h with h
      subst h
      exact List.mem_cons_self a t
    | some best =>
      by_cases hgt : best.updated_at > a.updated_at
      · have ha : pickFreshest (a :: t) = some best := by
          unfold pickFreshest
          rw [hpf]
          exact if_pos hgt
        rw [ha] at h
        injection h with h
        subst h
        exact List.mem_cons_of_mem a (ih hpf)
      · have ha : pickFreshest (a :: t) = some a := by
          unfold pickFreshest
          rw [hpf]
          exact if_neg hgt
        rw [ha] at h
        injection h with h
        subst h
        exact List.mem_cons_self a t

lemma priceRowMatches_iff {st : CacheState} {card_id : String} {cutoff : ℚ}
    {p : PriceRowDb} :
    priceRowMatches st card_id cutoff p = true ↔
      p.card_id = card_id ∧ cutoff < p.updated_at ∧
        ∃ c ∈ st.cards, c.card_id = p.card_id := by
  simp [priceRowMatches, List.any_eq_true, and_assoc]

/-- When no `prices` row satisfies the read condition, the read is a miss. -/
lemma getPriceDataFromCache_eq_none {st : CacheState} {card_id : String}
    {max_age_hours now : ℚ}
    (h : ∀ p ∈ st.prices, priceRowMatches st card_id (now - max_age_hours) p = false) :
    getPriceDataFromCache st card_id max_age_hours now = none := by
  have hnil : st.prices.filter (priceRowMatches st card_id (now - max_age_hours)) = [] :=
    List.filter_eq_nil_iff.mpr (fun p hp => by simp [h p hp])
  unfold getPriceDataFromCache
  rw [hnil]
  rfl

/-! ## Claim C9 — the price read joins against the `cards` table -/

/-- Claim C9: `get_price_data_from_cache` returns nothing unless a `cards`
row with the same `card_id` exists — the `JOIN cards c ON p.card_id =
c.card_id` discards every price row written without a preceding
`upsert_card`, regardless of freshness. -/
theorem C9_theorem (st : CacheState) (card_id : String) (max_age_hours now : ℚ)
    (h : ∀ c ∈ st.cards, c.card_id ≠ card_id) :
    getPriceDataFromCache st card_id max_age_hours now = none := by
  apply getPriceDataFromCache_eq_none
  intro p _
  rw [← Bool.not_eq_true, priceRowMatches_iff]
  rintro ⟨h1, _, c, hc, hcid⟩
  exact h c hc (hcid.trans h1)

/-- Witness for C9: a cache holding a fresh price row for `"y"` but no
`cards` row at all misses on every read. -/
theorem C9_witness : getPriceDataFromCache cacheOrphanPrice "y" 1000 6 = none :=
  C9_theorem cacheOrphanPrice "y" 1000 6 (by simp [cacheOrphanPrice])

/-! ## Claim C6 — cache freshness (TTL) -/

/-- Claim C6: a price read returns nothing when no `prices` row exists for
the card, or when every row for the card is older than `now − max_age_hours`;
in particular, a write at `now_w` followed immediately (`now_w ≤ now_r`, all
pre-existing rows not future-dated) by a read with `max_age_hours = 0`
returns nothing. -/
theorem C6_theorem :
    (∀ (st : CacheState) (card_id : String) (H now : ℚ),
      (∀ p ∈ st.prices, p.card_id ≠ card_id) →
      getPriceDataFromCache st card_id H now = none) ∧
    (∀ (st : CacheState) (card_id : String) (H now : ℚ),
      (∀ p ∈ st.prices, p.card_id = card_id → p.updated_at < now - H) →
      getPriceDataFromCache st card_id H now = none) ∧
    (∀ (st : CacheState) (card_id src : String) (pd : PriceData) (now_w now_r : ℚ),
      now_w ≤ now_r → (∀ p ∈ st.prices, p.updated_at ≤ now_r) →
      getPriceDataFromCache (upsertPrices st card_id pd src now_w) card_id 0 now_r =
        none) := by
  refine ⟨?_, ?_, ?_⟩
  · intro st card_id H now h
    apply getPriceDataFromCache_eq_none
    intro p hp
    rw [← Bool.not_eq_true, priceRowMatches_iff]
    rintro ⟨h1, _, _⟩
    exact h p hp h1
  · intro st card_id H now h
    apply getPriceDataFromCache_eq_none
    intro p hp
    rw [← Bool.not_eq_true, priceRowMatches_iff]
    rintro ⟨h1, h2, _⟩
    exact absurd (h p hp h1) (by linarith)
  · intro st card_id src pd now_w now_r hle hpast
    apply getPriceDataFromCache_eq_none
    intro p hp
    rw [← Bool.not_eq_true, priceRowMatches_iff]
    rintro ⟨_, h2, _⟩
    rw [sub_zero] at h2
    rcases List.mem_cons.mp hp with hnew | hold
    · subst hnew
      simp only [priceRowOf] at h2
      linarith
    · have hpmem : p ∈ st.prices := (List.mem_filter.mp hold).1
      exact absurd (hpast p hpmem) (by linarith)

/-- Witness for C6: writing a price for the cached card `"x"` at time 1 and
reading it back at time 1 with `max_age_hours = 0` misses. -/
theorem C6_witness :
    getPriceDataFromCache (upsertPrices cacheWithCardX "x" priceDataCanonical "src" 1)
      "x" 0 1 = none :=
  C6_theorem.2.2 cacheWithCardX "x" "src" priceDataCanonical 1 1 le_rfl
    (by simp [cacheWithCardX])

/-! ## Claim C7 — price round-trip through the cache -/

/-- Price-string fields whose decimal rendering already has exactly two
fractional digits — the canonical form `_safe_float_to_string` produces. -/
def canonicalScale2 (f : Option Dec) : Prop := ∀ d, f = some d → d.scale = 2

lemma canonicalScale2_none : canonicalScale2 none := fun _ hd => by cases hd

lemma canonicalScale2_some (n : Nat) : canonicalScale2 (some ⟨n, 2⟩) :=
  fun d hd => by injection hd with h; rw [← h]

lemma floor_cast_add_half (n : ℕ) : ⌊(n : ℚ) + 1/2⌋ = n := by
  rw [Int.floor_eq_iff]
  push_cast
  constructor <;> norm_num

/-- `float` → `"%.2f"` is the identity on two-decimal canonical values. -/
lemma floatToString_canonical {f : Option Dec} (h : canonicalScale2 f) :
    floatToString (f.map Dec.val) = f := by
  cases f with
  | none => rfl
  | some d =>
    obtain ⟨n, s⟩ := d
    have hs : s = 2 := h ⟨n, s⟩ rfl
    subst hs
    show some (Dec.mk (⌊Dec.val ⟨n, 2⟩ * 100 + 1/2⌋).toNat 2) = some (Dec.mk n 2)
    have hval : Dec.val ⟨n, 2⟩ * 100 + 1/2 = (n : ℚ) + 1/2 := by
      unfold Dec.val
      field_simp
      ring
    rw [hval, floor_cast_add_half, Int.toNat_natCast n]

/-- Reading back the row just written reproduces the `PriceData` exactly when
its price strings are canonical. -/
lemma priceDataOfRow_priceRowOf {card_id src : String} {pd : PriceData} {now : ℚ}
    (h1 : canonicalScale2 pd.tcgplayer_market_usd)
    (h2 : canonicalScale2 pd.cardmarket_trend_eur)
    (h3 : canonicalScale2 pd.cardmarket_avg30_eur) :
    priceDataOfRow (priceRowOf card_id pd src now) = pd := by
  show ({ tcgplayer_market_usd := floatToString (pd.tcgplayer_market_usd.map Dec.val)
          cardmarket_trend_eur := floatToString (pd.cardmarket_trend_eur.map Dec.val)
          cardmarket_avg30_eur := floatToString (pd.cardmarket_avg30_eur.map Dec.val)
          pricing_updatedAt_tcgplayer := (some pd.pricing_updatedAt_tcgplayer).getD ""
          pricing_updatedAt_cardmarket := (some pd.pricing_updatedAt_cardmarket).getD ""
          price_sources := (some pd.price_sources).getD ["pokemontcg.io"] } : PriceData) = pd
  rw [floatToString_canonical h1, floatToString_canonical h2,
    floatToString_canonical h3]
  rfl

/-- After upserting a price for a card with no other price rows, a fresh-enough
read returns exactly the re-assembled new row. -/
lemma getPrice_after_upsert_single (st : CacheState) (card_id src : String)
    (pd : PriceData) (now_w now_r H : ℚ)
    (hno : ∀ p ∈ st.prices, p.card_id ≠ card_id)
    (hcard : ∃ c ∈ st.cards, c.card_id = card_id)
    (hfresh : now_r - H < now_w) :
    getPriceDataFromCache (upsertPrices st card_id pd src now_w) card_id H now_r =
      some (priceDataOfRow (priceRowOf card_id pd src now_w)) := by
  have hpos : priceRowMatches (upsertPrices st card_id pd src now_w) card_id
      (now_r - H) (priceRowOf card_id pd src now_w) = true := by
    rw [priceRowMatches_iff]
    refine ⟨rfl, ?_, ?_⟩
    · show now_r - H < now_w
      exact hfresh
    · obtain ⟨c, hc, hcid⟩ := hcard
      exact ⟨c, hc, hcid⟩
  have hrest : (st.prices.filter
        (fun p => ¬ (p.card_id = card_id ∧ p.source = src))).filter
      (priceRowMatches (upsertPrices st card_id pd src now_w) card_id (now_r - H)) =
        [] := by
    apply List.filter_eq_nil_iff.mpr
    intro p hp
    have hpmem : p ∈ st.prices := (List.mem_filter.mp hp).1
    rw [priceRowMatches_iff]
    rintro ⟨hcid, -, -⟩
    exact hno p hpmem hcid
  unfold getPriceDataFromCache
  rw [show (upsertPrices st card_id pd src now_w).prices =
        priceRowOf card_id pd src now_w ::
          st.prices.filter (fun p => ¬ (p.card_id = card_id ∧ p.source = src))
      from rfl,
    List.filter_cons_of_pos hpos, hrest]
  rfl

/-- Counterexample to claim C7: the one-decimal price string `"3.5"`
(`Dec ⟨35, 1⟩`) is parsed to a float by `upsert_prices` and re-rendered by
`_float_to_string` as the different string `"3.50"` (`Dec ⟨350, 2⟩`): the
written `PriceData` does not come back unchanged. -/
theorem C7_counterexample :
    getPriceDataFromCache (upsertPrices cacheWithCardX "x" priceDataRaw35 "src" 1)
      "x" 24 1 =
      some { priceDataRaw35 with tcgplayer_market_usd := some ⟨350, 2⟩ } ∧
    some { priceDataRaw35 with tcgplayer_market_usd := some ⟨350, 2⟩ } ≠
      some priceDataRaw35 := by
  constructor
  · rw [getPrice_after_upsert_single cacheWithCardX "x" "src" priceDataRaw35 1 1 24
      (by simp [cacheWithCardX]) ⟨cardRowX, by simp [cacheWithCardX], rfl⟩ (by norm_num)]
    have h35 : floatToString ((some (⟨35, 1⟩ : Dec)).map Dec.val) =
        some (⟨350, 2⟩ : Dec) := by
      show some (Dec.mk (⌊Dec.val ⟨35, 1⟩ * 100 + 1/2⌋).toNat 2) = some (Dec.mk 350 2)
      have hval : Dec.val ⟨35, 1⟩ * 100 + 1/2 = ((350 : ℕ) : ℚ) + 1/2 := by
        unfold Dec.val
        push_cast
        norm_num
      rw [hval, floor_cast_add_half, Int.toNat_natCast]
    show some (priceDataOfRow (priceRowOf "x" priceDataRaw35 "src" 1)) = _
    rw [show priceDataOfRow (priceRowOf "x" priceDataRaw35 "src" 1) =
          { tcgplayer_market_usd :=
              floatToString ((some (⟨35, 1⟩ : Dec)).map Dec.val)
            cardmarket_trend_eur := none
            cardmarket_avg30_eur := none
            pricing_updatedAt_tcgplayer := "2024/03/01"
            pricing_updatedAt_cardmarket := ""
            price_sources := [] } from rfl, h35]
    rfl
  · simp [priceDataRaw35]

/-- Claim C7 (amended): a `PriceData` written by `upsert_prices` for a card
present in the `cards` table, with no other price rows for that card, comes
back unchanged from a read within the freshness window *provided* each
non-empty price string is in the two-decimal canonical form the pricer emits;
the `updatedAt` strings and the sources list — an empty list included — are
preserved exactly, while non-canonical price strings (e.g. `"3.5"`) are
reformatted (to `"3.50"`). -/
theorem C7_theorem (st : CacheState) (card_id src : String) (pd : PriceData)
    (now_w now_r H : ℚ)
    (hno : ∀ p ∈ st.prices, p.card_id ≠ card_id)
    (hcard : ∃ c ∈ st.cards, c.card_id = card_id)
    (hfresh : now_r - H < now_w)
    (h1 : canonicalScale2 pd.tcgplayer_market_usd)
    (h2 : canonicalScale2 pd.cardmarket_trend_eur)
    (h3 : canonicalScale2 pd.cardmarket_avg30_eur) :
    getPriceDataFromCache (upsertPrices st card_id pd src now_w) card_id H now_r =
      some pd := by
  rw [getPrice_after_upsert_single st card_id src pd now_w now_r H hno hcard hfresh,
    priceDataOfRow_priceRowOf h1 h2 h3]

/-- Witness for C7: the canonical `PriceData` (prices `"12.50"`, `"0.00"`,
an empty-string field, empty sources list) round-trips unchanged. -/
theorem C7_witness :
    getPriceDataFromCache (upsertPrices cacheWithCardX "x" priceDataCanonical "src" 2)
      "x" 24 2 = some priceDataCanonical :=
  C7_theorem cacheWithCardX "x" "src" priceDataCanonical 2 2 24
    (by simp [cacheWithCardX])
    ⟨cardRowX, by simp [cacheWithCardX], rfl⟩
    (by norm_num)
    (canonicalScale2_some 1250)
    canonicalScale2_none
    (canonicalScale2_some 0)

/-! ## Claim C8 — confidence monotonicity -/

/-- Claim C8: `confidence_from` is antitone in the distance for every fixed
inlier count; for every fixed distance `d ≥ 0` it is non-decreasing in the
inlier count up to 60 and constant from 60 on. -/
theorem C8_theorem :
    (∀ (d1 d2 : ℚ) (i : ℕ), d1 ≤ d2 →
      confidence_from d2 i ≤ confidence_from d1 i) ∧
    (∀ (d : ℚ) (i1 i2 : ℕ), 0 ≤ d → i1 ≤ i2 → i2 ≤ 60 →
      confidence_from d i1 ≤ confidence_from d i2) ∧
    (∀ (d : ℚ) (i : ℕ), 0 ≤ d → 60 ≤ i →
      confidence_from d i = confidence_from d 60) := by
  refine ⟨?_, ?_, ?_⟩
  · intro d1 d2 i hd
    simp only [confidence_from]
    have hmax : max 0 (1 - d2) ≤ max 0 (1 - d1) :=
      max_le_max le_rfl (by linarith)
    linarith
  · intro d i1 i2 _ h12 _
    simp only [confidence_from]
    have hmin : min 1 ((i1 : ℚ) / 60) ≤ min 1 ((i2 : ℚ) / 60) := by
      have hc : (i1 : ℚ) ≤ (i2 : ℚ) := by exact_mod_cast h12
      exact min_le_min le_rfl (by gcongr)
    linarith
  · intro d i _ hi
    simp only [confidence_from]
    have hcast : (60 : ℚ) ≤ (i : ℚ) := by exact_mod_cast hi
    have h1 : min 1 ((i : ℚ) / 60) = 1 := min_eq_left (by
      rw [le_div_iff₀ (by norm_num : (0 : ℚ) < 60)]
      linarith)
    have h2 : min 1 (((60 : ℕ) : ℚ) / 60) = 1 := by norm_num
    rw [h1, h2]

/-- Witness for C8: concrete instances of the three monotonicity facts. -/
theorem C8_witness :
    confidence_from 1 30 ≤ confidence_from 0 30 ∧
    confidence_from (1/2) 10 ≤ confidence_from (1/2) 20 ∧
    confidence_from (1/2) 90 = confidence_from (1/2) 60 :=
  ⟨C8_theorem.1 0 1 30 (by norm_num),
   C8_theorem.2.1 (1/2) 10 20 (by norm_num) (by norm_num) (by norm_num),
   C8_theorem.2.2 (1/2) 90 (by norm_num) (by norm_num)⟩

/-! ## Claim C3 — batch driver's handling of scans without a name -/

/-- Claim C3 (evaluation at the failing input): for a NEW scan whose
`ocr_json` column is NULL — and equally for one whose OCR data lacks a
name — the claim (and the code's own `"marking as SKIPPED"` path) requires
the NEW → SKIPPED transition with no network work.  The dictionaries
`get_new_scans` hands to the driver use the key `"ocr_data"`, while
`_has_valid_ocr_data` subscripts `scan["ocr_json"]`; the resulting
`KeyError` escapes `_process_single_scan` and the batch loop's `except`
marks the scan `ERROR`, not `SKIPPED`. -/
theorem C3_theorem :
    processSingleScanGate (scanRowToDict scanRowNoOcr) = .error ∧
    processSingleScanGate (scanRowToDict scanRowNoName) = .error ∧
    hasValidOcrData (scanRowToDict scanRowNoOcr) =
      .error "KeyError: ocr_json" ∧
    ScanGateOutcome.error ≠ ScanGateOutcome.skipped :=
  ⟨rfl, rfl, rfl, fun h => ScanGateOutcome.noConfusion h⟩

end PokemonScanner
